import Mathlib

/-!
Verification of `openmdao/recorders/recording_iteration_stack.py`: a shallow
embedding of the iteration-stack tracker, the coordinate formatter and the
`Recording` context manager, together with proofs of the specified properties.
-/

namespace RecordingIterationStack

/-- A frame of the recording iteration stack: `(name, iter_count)`. -/
abbrev Frame := String × Int

/-- Embedding of class `_RecIteration`: the process-wide iteration-stack state.
The Python attribute `prefix` (a `str` or `None`) is rendered as the field
`pfx : Option String`, `none` standing for `None`. -/
structure RecIteration where
  stack : List Frame
  pfx : Option String
deriving DecidableEq, Repr

/-- `_RecIteration.__init__`: `self.stack = []`, `self.prefix = None`. -/
def RecIteration.init : RecIteration :=
  { stack := [], pfx := none }

/-- Modelled from the spec: a `reset()` operation ("clears frames and prefix to
initial empty state") is described in the spec, but no `reset` method appears
in the source excerpt; only `_RecIteration.__init__`, which establishes that
initial state, is present.  We model `reset` as re-establishing the state set
up by `__init__`. -/
def RecIteration.reset (_s : RecIteration) : RecIteration :=
  RecIteration.init

/-- Python truthiness of a `str`-or-`None` value: `None` and `""` are falsy,
every other string is truthy (used by `if recording_iteration.prefix:`). -/
def strTruthy : Option String → Bool
  | none => false
  | some s => s != ""

/-- Embedding of `get_formatted_iteration_coordinate`, with the process-wide
state passed explicitly and the MPI rank injected: `mpiRank = none` models
`MPI` being absent (falsy), in which case the code emits `rank0:`, and
`mpiRank = some r` models `MPI.COMM_WORLD.rank == r`.  The function reads the
state and never mutates it, so it returns the string together with the state
it leaves behind. -/
def get_formatted_iteration_coordinate_run (s : RecIteration) (mpiRank : Option Nat) :
    String × RecIteration :=
  let separator := "|"
  let pre1 := if strTruthy s.pfx then (s.pfx.getD "") ++ "_" else ""
  let pre2 :=
    match mpiRank with
    | some r => pre1 ++ "rank" ++ toString r ++ ":"
    | none => pre1 ++ "rank0:"
  let coord_list := s.stack.map (fun f => f.1 ++ separator ++ toString f.2)
  (pre2 ++ String.intercalate separator coord_list, s)

/-- The string computed by `get_formatted_iteration_coordinate`. -/
def get_formatted_iteration_coordinate (s : RecIteration) (mpiRank : Option Nat) : String :=
  (get_formatted_iteration_coordinate_run s mpiRank).1

/-- The two call forms of the external `record_iteration` operation: the
solver form carries the `(abs, rel)` error arguments, the plain form takes
no arguments. -/
inductive CallEvent where
  | solverCall (absErr relErr : Int) : CallEvent
  | plainCall : CallEvent
deriving DecidableEq, Repr

/-- The external recording requester.  `isSolver` captures the outcome of the
`isinstance(recording_requester, Solver)` test performed in
`Recording.__init__` (the `Solver` class is an external collaborator), and
`onCall` captures the behaviour of the requester's `record_iteration` method:
`none` means the call returns normally, `some e` means it raises exception
`e`. -/
structure Requester where
  isSolver : Bool
  onCall : CallEvent → Option String

/-- Embedding of class `Recording` (the context manager). -/
structure Recording where
  name : String
  iter_count : Int
  recording_requester : Requester
  abs : Int
  rel : Int
  _is_solver : Bool

/-- `Recording.__init__`: stores the triple, zeroes `abs` and `rel`, and fixes
`_is_solver := isinstance(recording_requester, Solver)` once at construction. -/
def Recording.init (name : String) (iter_count : Int) (recording_requester : Requester) :
    Recording :=
  { name := name, iter_count := iter_count, recording_requester := recording_requester,
    abs := 0, rel := 0, _is_solver := recording_requester.isSolver }

/-- `Recording.__enter__`: `recording_iteration.stack.append((self.name,
self.iter_count))`. -/
def Recording.enter (r : Recording) (stack : List Frame) : List Frame :=
  stack ++ [(r.name, r.iter_count)]

/-- The `do_recording` flag computed by the loop at the top of
`Recording.__exit__`: start at `True`, scan the stack front to back, and stop
with `False` at the first frame whose name is `'_run_apply'` or
`'_compute_totals'`. -/
def computeDoRecording : List Frame → Bool
  | [] => true
  | f :: rest =>
    if f.1 = "_run_apply" || f.1 = "_compute_totals" then false
    else computeDoRecording rest

/-- Python `list.pop()`: removes and returns the tail element; raises
`IndexError` (modelled as `none`) on an empty list. -/
def stackPop (stack : List Frame) : Option (List Frame × Frame) :=
  match stack.getLast? with
  | none => none
  | some f => some (stack.dropLast, f)

/-- An error propagating out of `Recording.__exit__`: either the exception
raised by the requester's `record_iteration` callback, or the `IndexError`
from popping an empty stack. -/
inductive ExitErr where
  | callbackError (e : String) : ExitErr
  | indexError : ExitErr
deriving DecidableEq, Repr

/-- Observable outcome of `Recording.__exit__`: the `record_iteration` calls
actually made (zero or one), whether line 155 (`self.recording_requester =
None`) executed, the shared stack afterwards, and the propagating error, if
any. -/
structure ExitResult where
  calls : List CallEvent
  released : Bool
  stack : List Frame
  error : Option ExitErr
deriving Repr

/-- The call form chosen at exit: `record_iteration(abs=self.abs,
rel=self.rel)` when `self._is_solver`, else `record_iteration()`. -/
def Recording.callEvent (r : Recording) : CallEvent :=
  if r._is_solver then CallEvent.solverCall r.abs r.rel else CallEvent.plainCall

/-- `Recording.__exit__`, acting on the current shared stack (which, under a
correctly used context manager, ends with the frame pushed by `__enter__`).
It computes `do_recording`, makes the `record_iteration` call if recording is
justified, clears the requester reference, and pops the stack.  An exception
raised by the callback propagates at once: the clearing (line 155) and the
pop (line 160) are then not executed. -/
def Recording.exit (r : Recording) (stack : List Frame) : ExitResult :=
  let do_recording := computeDoRecording stack
  if do_recording then
    match r.recording_requester.onCall r.callEvent with
    | some e =>
        { calls := [r.callEvent], released := false, stack := stack,
          error := some (ExitErr.callbackError e) }
    | none =>
        match stackPop stack with
        | some (st, _) =>
            { calls := [r.callEvent], released := true, stack := st, error := none }
        | none =>
            { calls := [r.callEvent], released := true, stack := stack,
              error := some ExitErr.indexError }
  else
    match stackPop stack with
    | some (st, _) =>
        { calls := [], released := true, stack := st, error := none }
    | none =>
        { calls := [], released := true, stack := stack, error := some ExitErr.indexError }

/-- A properly nested program of recording scopes: `scope r body ab rest`
stands for `with Recording(...) : <body>` where `ab` says the scope body
raises after `body` ran, followed by `rest` at the same nesting level. -/
inductive Prog where
  | nil : Prog
  | scope (r : Recording) (body : Prog) (ab : Bool) (rest : Prog) : Prog

/-- Run a program against a stack, with Python `with`-statement semantics:
`__exit__` runs however the body finished; an exception — from the body or
from `__exit__` itself — propagates, skipping the remainder of the program.
Returns the final stack and whether an exception is propagating. -/
def Prog.run : Prog → List Frame → List Frame × Bool
  | Prog.nil, st => (st, false)
  | Prog.scope r body ab rest, st =>
    let st1 := r.enter st
    let inner := body.run st1
    let res := r.exit inner.1
    match res.error with
    | some _ => (res.stack, true)
    | none =>
      if inner.2 || ab then (res.stack, true)
      else rest.run res.stack

/-- No requester occurring in the program raises from its `record_iteration`
callback. -/
def Prog.noFail : Prog → Prop
  | Prog.nil => True
  | Prog.scope r body _ rest =>
    (∀ ev, r.recording_requester.onCall ev = none) ∧ body.noFail ∧ rest.noFail

/-- A non-solver requester whose `record_iteration` always succeeds. -/
def okRequester : Requester :=
  { isSolver := false, onCall := fun _ => none }

/-- A solver-kind requester whose `record_iteration` always succeeds. -/
def okSolverRequester : Requester :=
  { isSolver := true, onCall := fun _ => none }

/-- A non-solver requester whose `record_iteration` always raises `"boom"`. -/
def failingRequester : Requester :=
  { isSolver := false, onCall := fun _ => some "boom" }

/-- A recording scope whose requester's callback raises. -/
def failingRecording : Recording :=
  Recording.init "a" 1 failingRequester

/-- A single properly nested scope whose closure callback fails. -/
def failingProg : Prog :=
  Prog.scope failingRecording Prog.nil false Prog.nil

/-- Two nested scopes with well-behaved requesters; the inner scope body
exits abnormally. -/
def okProg : Prog :=
  Prog.scope (Recording.init "root" 6 okRequester)
    (Prog.scope (Recording.init "mda" 45 okSolverRequester) Prog.nil true Prog.nil)
    false Prog.nil

end RecordingIterationStack

namespace RecordingIterationStack

/-- A sentinel name anywhere in the stack forces `do_recording = False`. -/
lemma computeDoRecording_eq_false_of_mem {stack : List Frame} {f : Frame}
    (hmem : f ∈ stack) (hname : f.1 = "_run_apply" ∨ f.1 = "_compute_totals") :
    computeDoRecording stack = false := by
  induction stack with
  | nil => cases hmem
  | cons g rest ih =>
    rcases List.mem_cons.mp hmem with hg | hmem'
    · subst hg
      rcases hname with h | h <;> simp [computeDoRecording, h]
    · by_cases hg : (g.1 = "_run_apply" || g.1 = "_compute_totals") = true
      · simp [computeDoRecording, hg]
      · simp only [computeDoRecording, hg, if_neg, Bool.not_eq_true] at *
        simpa [hg] using ih hmem'

/-- `list.pop()` on a stack ending in `f` removes exactly `f`. -/
lemma stackPop_concat (st : List Frame) (f : Frame) :
    stackPop (st ++ [f]) = some (st, f) := by
  simp [stackPop, List.getLast?_concat, List.dropLast_concat]

/-- When `do_recording` is suppressed, `__exit__` makes no callback. -/
lemma exit_calls_of_not_doRecording (r : Recording) (stack : List Frame)
    (hdr : computeDoRecording stack = false) :
    (r.exit stack).calls = [] := by
  unfold Recording.exit
  rw [hdr]
  cases hsp : stackPop stack <;> simp [hsp]

/-- When recording is justified, `__exit__` makes exactly the one call chosen
by `_is_solver`, whatever the callback and the pop then do. -/
lemma exit_calls_of_doRecording (r : Recording) (stack : List Frame)
    (hdr : computeDoRecording stack = true) :
    (r.exit stack).calls = [r.callEvent] := by
  unfold Recording.exit
  rw [hdr]
  cases hoc : r.recording_requester.onCall r.callEvent with
  | some e => simp [hoc]
  | none =>
    cases hsp : stackPop stack with
    | none => simp [hoc, hsp]
    | some p => obtain ⟨st, g⟩ := p; simp [hoc, hsp]

/-- On a stack ending with the scope's own frame, if the callback does not
raise, `__exit__` pops exactly that frame and completes without error. -/
lemma exit_stack_concat (r : Recording) (st : List Frame) (f : Frame)
    (h : ∀ ev, r.recording_requester.onCall ev = none) :
    (r.exit (st ++ [f])).stack = st ∧ (r.exit (st ++ [f])).error = none := by
  unfold Recording.exit
  cases hdr : computeDoRecording (st ++ [f]) with
  | true => simp [h, stackPop_concat]
  | false => simp [stackPop_concat]

/-- C1: at any scope closure, if any frame anywhere on the current iteration
stack (the just-pushed frame or any ancestor, at any nesting position) is
named `_run_apply` or `_compute_totals`, no recording callback is invoked on
the requester. -/
theorem suppression_blocks_all_callbacks (r : Recording) (stack : List Frame) (f : Frame)
    (hmem : f ∈ stack) (hname : f.1 = "_run_apply" ∨ f.1 = "_compute_totals") :
    (r.exit stack).calls = [] :=
  exit_calls_of_not_doRecording r stack (computeDoRecording_eq_false_of_mem hmem hname)

/-- C1 witness: a sentinel frame below the top of a concrete stack suppresses
the callback. -/
theorem suppression_blocks_all_callbacks_witness :
    (("_run_apply", 2) ∈ ([("root", 6), ("_run_apply", 2), ("mda", 45)] : List Frame)) ∧
    ((("_run_apply", 2) : Frame).1 = "_run_apply" ∨
      (("_run_apply", 2) : Frame).1 = "_compute_totals") ∧
    (Recording.exit (Recording.init "mda" 45 okRequester)
      [("root", 6), ("_run_apply", 2), ("mda", 45)]).calls = [] :=
  ⟨by decide, Or.inl rfl,
    suppression_blocks_all_callbacks (Recording.init "mda" 45 okRequester)
      [("root", 6), ("_run_apply", 2), ("mda", 45)] ("_run_apply", 2)
      (by decide) (Or.inl rfl)⟩

/-- C2 counterexample: with a requester whose callback raises, the scope's
closure propagates the callback error while the frame pushed at entry is NOT
popped, so the stack is left one deeper than its pre-scope depth (1 ≠ 0). -/
theorem callback_failure_keeps_frame :
    (failingRecording.exit (failingRecording.enter [])).error
        = some (ExitErr.callbackError "boom") ∧
    (failingRecording.exit (failingRecording.enter [])).stack = [("a", 1)] ∧
    ([("a", 1)] : List Frame).length ≠ ([] : List Frame).length := by
  refine ⟨?_, ?_, ?_⟩ <;> decide

/-- C2 (amended): when the requester's `record_iteration` callback raises at a
non-suppressed closure, the error propagates to the caller WITHOUT the pop:
the stack keeps the frame pushed at scope entry, staying one deeper than its
pre-scope depth. -/
theorem callback_failure_propagates_without_pop (r : Recording) (st : List Frame) (e : String)
    (hdr : computeDoRecording (r.enter st) = true)
    (hcall : r.recording_requester.onCall r.callEvent = some e) :
    (r.exit (r.enter st)).error = some (ExitErr.callbackError e) ∧
    (r.exit (r.enter st)).stack = r.enter st := by
  unfold Recording.exit
  rw [hdr, hcall]
  simp

/-- C2 witness: a concrete failing callback with all hypotheses discharged. -/
theorem callback_failure_propagates_without_pop_witness :
    (failingRecording.exit (failingRecording.enter [])).error
        = some (ExitErr.callbackError "boom") ∧
    (failingRecording.exit (failingRecording.enter [])).stack = failingRecording.enter [] :=
  callback_failure_propagates_without_pop failingRecording [] "boom" (by decide) (by decide)

/-- C3 counterexample: one properly nested scope whose closure callback fails
leaves the stack at depth 1 although it started at depth 0, so depth after
all scopes closed differs from depth before the first opened. -/
theorem balance_fails_with_failing_callback :
    failingProg.run [] = ([("a", 1)], true) ∧
    ([("a", 1)] : List Frame).length ≠ ([] : List Frame).length := by
  refine ⟨?_, ?_⟩ <;> decide

/-- C3 (amended): for any sequence of properly nested scope open/close
operations in which no closure callback fails — scope bodies may still exit
abnormally — the stack after all scopes have closed equals the stack before
the first opened. -/
theorem balanced_when_callbacks_succeed (p : Prog) (h : p.noFail) :
    ∀ st : List Frame, (p.run st).1 = st := by
  induction p with
  | nil => intro st; rfl
  | scope r body ab rest ihb ihr =>
    obtain ⟨hcb, hbody, hrest⟩ := h
    intro st
    have hinner : (body.run (r.enter st)).1 = r.enter st := ihb hbody (r.enter st)
    have hexit := exit_stack_concat r st (r.name, r.iter_count) hcb
    simp only [Prog.run, hinner]
    simp only [Recording.enter] at hinner ⊢
    rw [hexit.2, hexit.1]
    cases hb : ((body.run (st ++ [(r.name, r.iter_count)])).2 || ab) with
    | true => rfl
    | false => exact ihr hrest st

/-- C3 witness: two nested well-behaved scopes, the inner body exiting
abnormally, restore the empty stack. -/
theorem balanced_when_callbacks_succeed_witness :
    (okProg.run []).1 = [] :=
  balanced_when_callbacks_succeed okProg
    ⟨fun _ => rfl, ⟨fun _ => rfl, trivial, trivial⟩, trivial⟩ []

/-- C4: at a non-suppressed closure, a scope constructed over a solver-kind
requester invokes `record_iteration` exactly once with the two error
arguments `(abs, rel)`; over a non-solver requester it invokes it exactly
once with no arguments — one call form, never both, on the same stack. -/
theorem capability_dispatch (name : String) (ic : Int) (req : Requester) (a b : Int)
    (stack : List Frame) (hdr : computeDoRecording stack = true) :
    (Recording.exit { Recording.init name ic req with abs := a, rel := b } stack).calls
      = if req.isSolver then [CallEvent.solverCall a b] else [CallEvent.plainCall] := by
  rw [exit_calls_of_doRecording _ stack hdr]
  cases hsol : req.isSolver <;>
    simp [Recording.callEvent, Recording.init, hsol]

/-- C4 witness: both requester kinds on the same concrete stack. -/
theorem capability_dispatch_witness :
    ((Recording.exit { Recording.init "root" 6 okSolverRequester with abs := 3, rel := 4 }
        [("root", 6)]).calls
      = if okSolverRequester.isSolver then [CallEvent.solverCall 3 4]
        else [CallEvent.plainCall]) ∧
    ((Recording.exit { Recording.init "root" 6 okRequester with abs := 3, rel := 4 }
        [("root", 6)]).calls
      = if okRequester.isSolver then [CallEvent.solverCall 3 4]
        else [CallEvent.plainCall]) :=
  ⟨capability_dispatch "root" 6 okSolverRequester 3 4 [("root", 6)] (by decide),
   capability_dispatch "root" 6 okRequester 3 4 [("root", 6)] (by decide)⟩

/-- C5: formatting the stack `[("root", 6), ("mda", 45)]` with no prefix at
rank 0 (whether MPI is absent or reports rank 0) yields exactly
`"rank0:root|6|mda|45"`, frames in insertion order, outermost first. -/
theorem format_two_frames :
    get_formatted_iteration_coordinate { stack := [("root", 6), ("mda", 45)], pfx := none } none
        = "rank0:root|6|mda|45" ∧
    get_formatted_iteration_coordinate { stack := [("root", 6), ("mda", 45)], pfx := none }
        (some 0) = "rank0:root|6|mda|45" := by
  refine ⟨?_, ?_⟩ <;> decide

/-- C6: formatting the empty stack with no prefix at rank 0 yields exactly
`"rank0:"`, with no frame segments and no trailing separator. -/
theorem format_empty_stack :
    get_formatted_iteration_coordinate RecIteration.init none = "rank0:" ∧
    get_formatted_iteration_coordinate RecIteration.init (some 0) = "rank0:" := by
  refine ⟨?_, ?_⟩ <;> decide

/-- C7: `reset` on any state — e.g. one holding frames with a prefix set —
restores the `__init__` state, so a subsequent format call returns the
empty-stack baseline string. -/
theorem reset_restores_initial_state (s : RecIteration) (mpiRank : Option Nat) :
    RecIteration.reset s = RecIteration.init ∧
    get_formatted_iteration_coordinate (RecIteration.reset s) mpiRank
      = get_formatted_iteration_coordinate RecIteration.init mpiRank :=
  ⟨rfl, rfl⟩

/-- C8: the formatter is deterministic and side-effect-free: it returns the
state unchanged, and a second invocation on the state it leaves behind
returns the same string. -/
theorem format_deterministic_and_pure (s : RecIteration) (mpiRank : Option Nat) :
    (get_formatted_iteration_coordinate_run s mpiRank).2 = s ∧
    (get_formatted_iteration_coordinate_run
        (get_formatted_iteration_coordinate_run s mpiRank).2 mpiRank).1
      = (get_formatted_iteration_coordinate_run s mpiRank).1 :=
  ⟨rfl, rfl⟩

/-- C9: `pop()` fails (raises `IndexError`) exactly on the empty stack, and
never fails on a non-empty stack. -/
theorem pop_fails_iff_empty (stack : List Frame) :
    stackPop stack = none ↔ stack = [] := by
  unfold stackPop
  cases hl : stack.getLast? with
  | none => simpa using List.getLast?_eq_none_iff.mp hl
  | some f =>
    simp only [reduceCtorEq, false_iff]
    intro h
    subst h
    simp at hl

/-- C10: an empty-string prefix formats identically to an absent prefix — the
prefix test is a truthiness test, so `""` emits no `"<prefix>_"` segment. -/
theorem empty_string_prefix_same_as_none (stack : List Frame) (mpiRank : Option Nat) :
    get_formatted_iteration_coordinate { stack := stack, pfx := some "" } mpiRank
      = get_formatted_iteration_coordinate { stack := stack, pfx := none } mpiRank := rfl

end RecordingIterationStack
